import Mathlib

/-!
Verification of the OMI fleet controller/agent core: a shallow embedding of
the process supervisor (`client/AppHandler.py`), the service orchestrator
(`client/agent/runtime.py`), the desired-service persistence
(`client/jsonconfig.py`), the device index store (`server/db.py`), the device
registry (`server/app/registry.py`) and the command broadcaster
(`server/app/broadcast.py`), with theorems checking the specified behaviour.

Wall-clock timestamps, logging and the OLED renderer are modelled as no-ops;
process spawning, process termination and config downloads are modelled by an
explicit environment that says whether each external call succeeds.  File
writes are modelled as atomic state updates.
-/

namespace OmiSpec

/-- Python truthiness of an optional string field: `None` and `""` are falsy. -/
def optTruthy : Option String → Bool
  | none => false
  | some s => !s.isEmpty

/-- Drop leading whitespace characters. -/
def dropWhitespace : List Char → List Char
  | [] => []
  | c :: cs => if c.isWhitespace then dropWhitespace cs else c :: cs

/-- Python `str.strip()`: drop leading and trailing whitespace. -/
def pyStrip (s : String) : String :=
  { data := (dropWhitespace (dropWhitespace s.data).reverse).reverse }

/-- `jsonconfig.STANDBY_SERVICE`. -/
def STANDBY_SERVICE : String := "standby"

/-! ## Process Supervisor (`client/AppHandler.py`)

Module-level state `_proc`, `_name`, `_logical`, `_last_error`,
`_last_returncode`, plus a ghost trace of the supervisor calls made
(used to state rollback properties). -/

/-- Ghost record of one supervisor lifecycle call. -/
inductive SupCall where
  | startCall (name : String)
  | stopCall
  deriving DecidableEq, Repr, Inhabited

/-- A retained child-process handle: its pid, whether `poll()` still returns
`None` (alive), and the return code observed once it has exited. -/
structure ProcInfo where
  pid : Nat
  alive : Bool
  rc : Int
  deriving DecidableEq, Repr, Inhabited

/-- The supervisor's module-level mutable state. -/
structure SupState where
  proc : Option ProcInfo
  name : Option String
  logical : Option String
  lastError : Option String
  lastReturncode : Option Int
  calls : List SupCall
  deriving DecidableEq, Repr, Inhabited

/-- Initial module state: `_proc = None`, `_name = None`,
`_logical = STANDBY_SERVICE`. -/
def initSupState : SupState :=
  { proc := none, name := none, logical := some STANDBY_SERVICE,
    lastError := none, lastReturncode := none, calls := [] }

/-- Environment describing the outcome of the external process operations:
whether `subprocess.Popen` succeeds for a given service, the pid it yields,
the spawn error text otherwise, which catalog entries are `type: "logical"`,
and whether `terminate()` raises. -/
structure SupEnv where
  spawnOk : String → Bool
  spawnPid : String → Nat
  spawnErr : String → String
  isLogical : String → Bool
  termRaises : Bool
  termErr : String
  termRc : Option Int

/-- `AppHandler._is_running`: polls the retained handle; a handle whose poll
returns a return code is treated as not running, the code is cached in
`_last_returncode` and, if no error was recorded, `_last_error` is set. -/
def isRunningPoll (s : SupState) : Bool × SupState :=
  match s.proc with
  | none => (false, s)
  | some p =>
    if p.alive then (true, { s with lastReturncode := none })
    else
      (false, { s with
                  lastReturncode := some p.rc
                  lastError := (match s.lastError with
                    | none => some ("return code " ++ toString p.rc)
                    | some e => some e) })

/-- `AppHandler.stop_service`: terminate (poll up to timeout, kill), then in
every branch — no process, clean termination, or termination raising — the
retained handle and name are cleared and `_logical` returns to standby. -/
def stop_service (env : SupEnv) (s0 : SupState) : Bool × SupState :=
  let s1 := { s0 with calls := s0.calls ++ [SupCall.stopCall] }
  let r := isRunningPoll s1
  if !r.1 then
    (true, { r.2 with
               proc := none
               name := none
               logical := some STANDBY_SERVICE
               lastError := none
               lastReturncode := none })
  else if env.termRaises then
    (false, { r.2 with
                proc := none
                name := none
                logical := some STANDBY_SERVICE
                lastError := some env.termErr
                lastReturncode := none })
  else
    (true, { r.2 with
               proc := none
               name := none
               logical := some STANDBY_SERVICE
               lastError := none
               lastReturncode := env.termRc })

/-- The dictionary built by `AppHandler.get_status`. -/
structure SupStatus where
  name : Option String
  logical : Option String
  running : Bool
  pid : Option Nat
  lastError : Option String
  returncode : Option Int
  deriving DecidableEq, Repr, Inhabited

/-- `AppHandler.get_status`: polls the handle and reports the module state. -/
def get_status (s : SupState) : SupStatus × SupState :=
  let r := isRunningPoll s
  ({ name := r.2.name
     logical := r.2.logical
     running := r.1
     pid := if r.1 then r.2.proc.map (·.pid) else none
     lastError := r.2.lastError
     returncode := r.2.lastReturncode }, r.2)

/-- The standby branch of `AppHandler.start_service`: a pure stop with no
launch (`_proc`/`_name` are only cleared via `stop_service` when a live
process exists). -/
def startStandby (env : SupEnv) (s : SupState) : Bool × SupState :=
  let r := isRunningPoll s
  let s2 := if r.1 then (stop_service env r.2).2 else r.2
  (true, { s2 with
             logical := some STANDBY_SERVICE
             lastError := none
             lastReturncode := none })

/-- `AppHandler.start_service`: standby is special-cased to a stop; a catalog
entry of `type: "logical"` redirects to standby; an already-running process of
the same name is kept; otherwise any running process is stopped first and the
new one spawned.  On spawn failure no handle is retained and `_last_error`
holds the spawn error text. -/
def start_service (env : SupEnv) (name : String) (s0 : SupState) : Bool × SupState :=
  let s := { s0 with calls := s0.calls ++ [SupCall.startCall name] }
  if name = STANDBY_SERVICE then startStandby env s
  else if env.isLogical name then
    let s2 := { s with calls := s.calls ++ [SupCall.startCall STANDBY_SERVICE] }
    startStandby env s2
  else
    let r := isRunningPoll s
    if r.1 && (r.2.name == some name) then
      (true, { r.2 with logical := some name })
    else
      let s3 := if r.1 then (stop_service env r.2).2 else r.2
      if env.spawnOk name then
        (true, { s3 with
                   proc := some { pid := env.spawnPid name, alive := true, rc := 0 }
                   name := some name
                   logical := some name
                   lastError := none
                   lastReturncode := none })
      else
        (false, { s3 with
                    proc := none
                    name := none
                    logical := some STANDBY_SERVICE
                    lastError := some (env.spawnErr name)
                    lastReturncode := none })

/-! ## Desired-service persistence (`client/jsonconfig.py`)

The structure file's `services` list of `{name, enabled}` entries; the single
enabled entry is the persisted desired service.  File writes are modelled as
atomic state updates. -/

/-- One entry of the structure file's `services` list. -/
structure ServiceEntry where
  name : String
  enabled : Bool
  deriving DecidableEq, Repr, Inhabited

/-- The parts of the persisted structure file the core reads: the identity
serial and the services list. -/
structure ConfigFile where
  serial : String
  services : List ServiceEntry
  deriving DecidableEq, Repr, Inhabited

/-- `jsonconfig.get_enabled_service`: the first enabled entry's name. -/
def get_enabled_service (data : ConfigFile) : Option String :=
  (data.services.find? (·.enabled)).map (·.name)

/-- Python `x or default` over an optional string: `None` and `""` fall back. -/
def orDefault (o : Option String) (d : String) : String :=
  match o with
  | some s => if s.isEmpty then d else s
  | none => d

/-- Insertion into a Python dict rendered as an ordered association list:
keys keep first-insertion order, a repeated key overwrites its value. -/
def dictInsert (d : List (String × Bool)) (k : String) (v : Bool) :
    List (String × Bool) :=
  if d.any (·.1 = k) then d.map (fun p => if p.1 = k then (k, v) else p)
  else d ++ [(k, v)]

/-- The `by_name` dict of `jsonconfig._sync_services` (entries with a falsy
name are skipped). -/
def servicesByName (l : List ServiceEntry) : List (String × Bool) :=
  (l.filter (fun e => !e.name.isEmpty)).foldl
    (fun d e => dictInsert d e.name e.enabled) []

/-- First key of the dict whose value is true (the `active` scan). -/
def firstEnabled (d : List (String × Bool)) : Option String :=
  (d.find? (·.2)).map (·.1)

/-- `jsonconfig._sync_services`: rebuild the services list from the discovered
catalog, keeping the active service if still discovered, else falling back to
standby, and enabling the first entry when nothing is enabled. -/
def sync_services (discovered : List String) (services : List ServiceEntry) :
    List ServiceEntry :=
  let byName := servicesByName services
  let active0 := firstEnabled byName
  let activeOk := match active0 with
    | some a => discovered.contains a
    | none => false
  let active := if activeOk then active0
    else if discovered.contains STANDBY_SERVICE then some STANDBY_SERVICE
    else none
  let updated := discovered.map
    (fun n => ({ name := n, enabled := active = some n } : ServiceEntry))
  if updated.all (fun e => !e.enabled) then
    match updated with
    | [] => []
    | e :: rest => { e with enabled := true } :: rest
  else updated

/-- The standby fallback loop at the end of `set_active_service`: enable the
first entry named standby. -/
def enableFirstStandby : List ServiceEntry → List ServiceEntry
  | [] => []
  | e :: rest =>
      if e.name = STANDBY_SERVICE then { e with enabled := true } :: rest
      else e :: enableFirstStandby rest

/-- `jsonconfig.set_active_service`: validate the name against the file's
entries (resyncing against the discovered catalog when missing), raise
`ValueError` when still unknown, else rewrite every entry's enabled flag so
the named service is the single desired one, and persist. -/
def set_active_service (discovered : List String) (file : ConfigFile)
    (name : String) : Except String ConfigFile :=
  let data :=
    if (file.services.map (·.name)).contains name then file
    else { file with services := sync_services discovered file.services }
  if (data.services.map (·.name)).contains name then
    let entries := data.services.map (fun e => { e with enabled := e.name = name })
    let entries :=
      if entries.any (·.enabled) then entries else enableFirstStandby entries
    Except.ok { data with services := entries }
  else Except.error ("unknown service: " ++ name)

/-! ## Service Orchestrator (`client/agent/runtime.py`)

`AgentRuntime`'s service state, the `_apply_active_service` orchestration and
the `SET_SERVICE` protocol handler.  Wall-clock timestamps, log/UI calls and
the MIDI web-url computation are dropped; config downloads are modelled by the
environment's success flag. -/

/-- `AgentRuntime.service_status` (timestamp and web-url dropped). -/
structure ServiceStatus where
  expected : String
  actual : Option String
  logical : Option String
  running : Bool
  pid : Option Nat
  lastError : Option String
  returncode : Option Int
  configName : Option String
  errorMsg : Option String
  transition : Bool
  progress : Nat
  stage : Option String
  deriving DecidableEq, Repr, Inhabited

/-- The dict `AgentRuntime.__init__` installs in `service_status`. -/
def initServiceStatus : ServiceStatus :=
  { expected := STANDBY_SERVICE
    actual := none
    logical := some STANDBY_SERVICE
    running := false
    pid := none
    lastError := none
    returncode := none
    configName := none
    errorMsg := none
    transition := false
    progress := 0
    stage := none }

/-- The agent-side state the orchestrator mutates: the supervisor module
state, the persisted structure file, the in-memory config copy, the service
status snapshot and the sticky error message. -/
structure AgentState where
  sup : SupState
  file : ConfigFile
  cfg : ConfigFile
  serviceStatus : ServiceStatus
  serviceError : Option String
  deriving DecidableEq, Repr, Inhabited

/-- Agent environment: the supervisor environment, the discovered catalog
(`discover_services()`, cached manifest, stable within the process), the
outcome of config downloads, and the MIDI config name on disk. -/
structure AgentEnv where
  sup : SupEnv
  discovered : List String
  downloadOk : String → String → Bool
  downloadErr : String → String → String
  midiConfigName : Option String

/-- Clamp `max(0, min(100, int(progress)))`. -/
def clampProgress (p : Int) : Nat := (max 0 (min 100 p)).toNat

/-- `AgentRuntime._update_service_status`: poll the supervisor (unless a
runtime snapshot is passed), resolve the expected service (from the in-memory
config unless passed), and rebuild `service_status` keeping the transition
fields. -/
def updateServiceStatusWith (env : AgentEnv) (st0 : AgentState)
    (expectedArg : Option String) (runtimeArg : Option SupStatus) : AgentState :=
  let pr : SupStatus × AgentState :=
    match runtimeArg with
    | some r => (r, st0)
    | none =>
        let g := get_status st0.sup
        (g.1, { st0 with sup := g.2 })
  let runtime := pr.1
  let st := pr.2
  let expected := match expectedArg with
    | some e => e
    | none => orDefault (get_enabled_service st.cfg) STANDBY_SERVICE
  let configName := if expected = "MIDI" then env.midiConfigName else none
  let old := st.serviceStatus
  { st with serviceStatus :=
    { expected := expected
      actual := runtime.name
      logical := runtime.logical
      running := runtime.running
      pid := runtime.pid
      lastError := runtime.lastError
      returncode := runtime.returncode
      configName := configName
      errorMsg := st.serviceError
      transition := old.transition
      progress := old.progress
      stage := old.stage } }

/-- `AgentRuntime._set_service_transition`. -/
def setServiceTransition (st : AgentState) (active : Bool)
    (stage : Option String) (progress : Option Int) : AgentState :=
  let ss0 := st.serviceStatus
  let ss1 := { ss0 with transition := active }
  let ss2 := match stage with
    | some sg => { ss1 with stage := some sg }
    | none => ss1
  let ss3 := match progress with
    | some p => { ss2 with progress := clampProgress p }
    | none => ss2
  { st with serviceStatus := ss3 }

/-- `AgentRuntime._set_service_error`: record the sticky error, mark the
transition finished in stage "error", refresh the status snapshot. -/
def setServiceError (env : AgentEnv) (st : AgentState) (message : String) :
    AgentState :=
  let st1 := { st with serviceError := some message }
  let st2 := setServiceTransition st1 false (some "error") (some 100)
  updateServiceStatusWith env st2 none none

/-- `AgentRuntime._clear_service_error`. -/
def clearServiceError (env : AgentEnv) (st : AgentState) : AgentState :=
  match st.serviceError with
  | some _ => updateServiceStatusWith env { st with serviceError := none } none none
  | none => st

/-- The outcome of `_download_service_config` as the environment decides it. -/
def downloadConfig (env : AgentEnv) (service : String) (configName : Option String)
    (guard : Bool) : Except String Unit :=
  if guard then
    if env.downloadOk service (configName.getD "") then Except.ok ()
    else Except.error (env.downloadErr service (configName.getD ""))
  else Except.ok ()

/-- `AgentRuntime._apply_active_service`: validate the service id, no-op when
it is already the running desired service, special-case standby to a stop,
otherwise optionally download the config, start the service (raising
`RuntimeError` when the supervisor reports failure), persist the desired
service (on persist failure start the previous service again and re-raise),
refresh status and clear the sticky error.  An error result carries the raise
message and the state at the raise point. -/
def applyActiveService (env : AgentEnv) (st0 : AgentState) (service0 : String)
    (configName : Option String) : Except (String × AgentState) AgentState :=
  let service := pyStrip service0
  if service.isEmpty then Except.error ("nombre de servicio vacío", st0)
  else if !(env.discovered.contains service) then
    Except.error ("servicio desconocido: " ++ service, st0)
  else
    let snapshot := st0.cfg
    let previous := orDefault (get_enabled_service snapshot) STANDBY_SERVICE
    let g := get_status st0.sup
    let runtime := g.1
    let st := { st0 with sup := g.2 }
    let runningSame := runtime.running && (runtime.name == some service)
    if service = previous ∧ runningSame = true then
      match downloadConfig env service configName
          (optTruthy configName && !(service = STANDBY_SERVICE)) with
      | Except.error e => Except.error (e, st)
      | Except.ok _ =>
        match set_active_service env.discovered st.file service with
        | Except.error e => Except.error (e, st)
        | Except.ok file2 =>
          let st2 := { st with file := file2, cfg := file2 }
          Except.ok (updateServiceStatusWith env st2 (some service) (some runtime))
    else if service = STANDBY_SERVICE then
      let r := start_service env.sup STANDBY_SERVICE st.sup
      let st2 := { st with sup := r.2 }
      match set_active_service env.discovered st2.file service with
      | Except.error e => Except.error (e, st2)
      | Except.ok file2 =>
        let st3 := { st2 with file := file2, cfg := file2 }
        let st4 := updateServiceStatusWith env st3 (some service) none
        Except.ok (clearServiceError env st4)
    else
      match downloadConfig env service configName (optTruthy configName) with
      | Except.error e => Except.error (e, st)
      | Except.ok _ =>
        let r := start_service env.sup service st.sup
        let st2 := { st with sup := r.2 }
        if !r.1 then
          Except.error ("no se pudo iniciar el servicio '" ++ service ++ "'", st2)
        else
          match set_active_service env.discovered st2.file service with
          | Except.error e =>
              let r2 := start_service env.sup previous st2.sup
              Except.error (e, { st2 with sup := r2.2 })
          | Except.ok file2 =>
            let st3 := { st2 with file := file2, cfg := file2 }
            let st4 := updateServiceStatusWith env st3 (some service) none
            Except.ok (clearServiceError env st4)

/-- A `SERVICE_ACK` datagram as `_handle_service_command.send_ack` builds it
(timestamp dropped; the `config` field mirrors the request's optional config,
absent when the request carried none). -/
structure AckMsg where
  type : String
  requestId : Option String
  serial : String
  service : Option String
  ok : Bool
  error : Option String
  services : List ServiceEntry
  serviceState : ServiceStatus
  transition : Bool
  stage : String
  config : Option String
  progress : Option Nat
  deriving DecidableEq, Repr, Inhabited

/-- `send_ack`: snapshot the current config and service state into the ack. -/
def mkServiceAck (st : AgentState) (requestId : Option String)
    (service : Option String) (configTarget : Option String) (ok : Bool)
    (transitionFlag : Bool) (stage : String) (progress : Option Int)
    (error : Option String) : AckMsg :=
  { type := "SERVICE_ACK"
    requestId := requestId
    serial := st.cfg.serial
    service := service
    ok := ok
    error := error
    services := st.cfg.services
    serviceState := st.serviceStatus
    transition := transitionFlag
    stage := stage
    config := configTarget
    progress := progress.map clampProgress }

/-- `AgentRuntime._handle_service_command`: emit the "cerrando" transition ack
immediately, run the transition (`_apply_active_service`), then on success the
"abriendo" transition ack and the "completado" final ack, or on failure the
"error" final ack carrying the raise message.  Returns the acks in emission
order and the final agent state. -/
def handleServiceCommand (env : AgentEnv) (st : AgentState)
    (requestId : Option String) (serviceOpt : Option String)
    (configTarget : Option String) : List AckMsg × AgentState :=
  let st1 := setServiceTransition st true (some "cerrando") (some 5)
  let a1 := mkServiceAck st1 requestId serviceOpt configTarget true true "cerrando"
    (some 5) none
  match applyActiveService env st1 (serviceOpt.getD "") configTarget with
  | Except.ok st2 =>
      let st3 := setServiceTransition st2 true (some "abriendo") (some 80)
      let a2 := mkServiceAck st3 requestId serviceOpt configTarget true true
        "abriendo" (some 80) none
      let st4 := setServiceTransition st3 false (some "completado") (some 100)
      let a3 := mkServiceAck st4 requestId serviceOpt configTarget true false
        "completado" (some 100) none
      ([a1, a2, a3], st4)
  | Except.error (msg, st2) =>
      let st3 := setServiceError env st2 msg
      let st4 := setServiceTransition st3 false (some "error") (some 100)
      let a4 := mkServiceAck st4 requestId serviceOpt configTarget false false
        "error" (some 100) (some msg)
      ([a1, a4], st4)

/-- The agent state right after booting into standby with structure file
`file`: supervisor module fresh, in-memory config equal to the file, initial
service status, no sticky error. -/
def standbyBootState (file : ConfigFile) : AgentState :=
  { sup := initSupState
    file := file
    cfg := file
    serviceStatus := initServiceStatus
    serviceError := none }

/-- The previous desired service as `_apply_active_service` computes it. -/
def previousOf (st : AgentState) : String :=
  orDefault (get_enabled_service st.cfg) STANDBY_SERVICE

/-- Whether a ghost supervisor call is a `start_service` call. -/
def isStartCall : SupCall → Bool
  | SupCall.startCall _ => true
  | SupCall.stopCall => false

/-- The raise message of an `_apply_active_service` outcome. -/
def applyResultMsg : Except (String × AgentState) AgentState → Option String
  | Except.error (m, _) => some m
  | Except.ok _ => none

/-- The ghost supervisor-call trace of an `_apply_active_service` outcome. -/
def applyResultCalls : Except (String × AgentState) AgentState → List SupCall
  | Except.error (_, s) => s.sup.calls
  | Except.ok s => s.sup.calls

/-- Concrete supervisor environment whose spawns always fail. -/
def supEnvSpawnFail : SupEnv :=
  { spawnOk := fun _ => false
    spawnPid := fun _ => 0
    spawnErr := fun n => "spawn error " ++ n
    isLogical := fun _ => false
    termRaises := false
    termErr := "term error"
    termRc := some 0 }

/-- Concrete supervisor environment whose spawns always succeed (pid 101). -/
def supEnvOk : SupEnv :=
  { spawnOk := fun _ => true
    spawnPid := fun _ => 101
    spawnErr := fun n => "spawn error " ++ n
    isLogical := fun _ => false
    termRaises := false
    termErr := "term error"
    termRc := some 0 }

/-- A structure file with standby enabled and MIDI available. -/
def twoServiceFile : ConfigFile :=
  { serial := "SER1"
    services := [{ name := "standby", enabled := true },
                 { name := "MIDI", enabled := false }] }

/-- Agent environment in which every spawn fails. -/
def agentEnvSpawnFail : AgentEnv :=
  { sup := supEnvSpawnFail
    discovered := ["standby", "MIDI"]
    downloadOk := fun _ _ => true
    downloadErr := fun _ _ => "descarga fallida"
    midiConfigName := none }

/-- Agent environment in which every spawn succeeds. -/
def agentEnvOk : AgentEnv :=
  { sup := supEnvOk
    discovered := ["standby", "MIDI"]
    downloadOk := fun _ _ => true
    downloadErr := fun _ _ => "descarga fallida"
    midiConfigName := none }

/-! ## Device index store (`server/db.py`)

The `devices` table, restricted to the columns the index logic reads. -/

/-- A row of the `devices` table. -/
structure DevRow where
  serial : String
  idx : Option Nat
  deriving DecidableEq, Repr, Inhabited

/-- The defined `device_index` values (`WHERE device_index IS NOT NULL`). -/
def usedIndices (t : List DevRow) : List Nat := t.filterMap (·.idx)

/-- The `candidate = 1; while candidate in used: candidate += 1` loop of
`db._next_device_index`, written with explicit fuel (always sufficient, see
`next_device_index_spec`). -/
def nextCandAux (used : List Nat) : Nat → Nat → Nat
  | 0, cand => cand
  | fuel + 1, cand => if cand ∈ used then nextCandAux used fuel (cand + 1) else cand

/-- `db._next_device_index`: the smallest candidate ≥ 1 that no row uses. -/
def next_device_index (t : List DevRow) : Nat :=
  nextCandAux (usedIndices t) ((usedIndices t).length + 1) 1

/-- `db.ensure_device_index`: return the serial's persisted index; when the
row is missing insert it with the next free index; when its index is NULL
assign and persist the next free index. -/
def ensure_device_index (t : List DevRow) (serial : String) : Nat × List DevRow :=
  match t.find? (·.serial == serial) with
  | none =>
      let n := next_device_index t
      (n, t ++ [{ serial := serial, idx := some n }])
  | some row =>
      match row.idx with
      | some i => (i, t)
      | none =>
          let n := next_device_index t
          (n, t.map (fun r => if r.serial == serial then { r with idx := some n } else r))

/-- The index effect of `db.upsert_device(serial, ..., device_index=n)`:
`device_index = COALESCE(?, device_index)` on an existing row, insert
otherwise. -/
def upsert_device_index (t : List DevRow) (serial : String) (n : Nat) : List DevRow :=
  if (t.find? (·.serial == serial)).isSome then
    t.map (fun r => if r.serial == serial then { r with idx := some n } else r)
  else t ++ [{ serial := serial, idx := some n }]

/-- The persisted-index effect of one `AGENT_STATUS` from `serial`:
`DeviceRegistry.update_from_status` calls `ensure_device_index(serial)` and
then `upsert_device(serial, host, device_index=assigned)`. -/
def statusStep (t : List DevRow) (serial : String) : List DevRow :=
  let r := ensure_device_index t serial
  upsert_device_index r.2 serial r.1

/-- The persisted index of a serial. -/
def idxOf (t : List DevRow) (serial : String) : Option Nat :=
  match t.find? (·.serial == serial) with
  | some row => row.idx
  | none => none

/-- Spec-side definition, following the claim's words: `k` is the smallest
non-negative integer not currently used. -/
def specSmallestUnusedNonneg (used : List Nat) (k : Nat) : Prop :=
  k ∉ used ∧ ∀ j < k, j ∈ used

/-! ## Device registry (`server/app/registry.py`) -/

/-- One in-memory registry entry (the fields the claims touch; `lastSeen` is
the wall-clock receipt time of the last `AGENT_STATUS`, as rational time). -/
structure RegEntry where
  serial : String
  ip : Option String
  lastSeen : ℚ
  deriving DecidableEq, Repr

/-- A registry entry as `list_devices` returns it: a copy plus the derived
`online` flag (never stored). -/
structure RegEntryOut where
  serial : String
  ip : Option String
  lastSeen : ℚ
  online : Bool
  deriving DecidableEq, Repr

/-- `DeviceRegistry.list_devices`: dict copies of every entry with
`online := now - last_seen < ttl` computed at read time; no entry is removed
or mutated. -/
def list_devices (devices : List RegEntry) (now ttl : ℚ) : List RegEntryOut :=
  devices.map (fun d =>
    { serial := d.serial, ip := d.ip, lastSeen := d.lastSeen,
      online := decide (now - d.lastSeen < ttl) })

/-- `DeviceRegistry.get_device`: a copy of the entry, if known. -/
def regGet (devices : List RegEntry) (serial : String) : Option RegEntry :=
  devices.find? (·.serial == serial)

/-! ## Command broadcaster (`server/app/broadcast.py`)

The pending-request table keyed by `request_id`, the per-serial index dedup
set, and ghost logs of the packets handed to the command socket and of the
resolutions delivered to waiters. -/

/-- An inbound ack datagram (the fields the listener reads). -/
structure AckIn where
  msgType : String
  requestId : Option String
  serial : Option String
  transition : Bool
  ok : Bool
  error : Option String
  index : Option Int
  deriving DecidableEq, Repr, Inhabited

/-- A payload stored into a `PendingRequest`: an inbound ack dict, or a
synthesized `{ok, error}` dict. -/
inductive StoredPayload where
  | ack (a : AckIn)
  | failure (ok : Bool) (error : String)
  deriving DecidableEq, Repr, Inhabited

/-- A `PendingRequest`: its payload slot (written by `update`/`set`) and its
threading event flag (set only by `set`). -/
structure Pending where
  payload : Option StoredPayload
  eventSet : Bool
  deriving DecidableEq, Repr, Inhabited

/-- A freshly constructed `PendingRequest()`. -/
def newPending : Pending := { payload := none, eventSet := false }

/-- An outbound command datagram. -/
structure OutMsg where
  msgType : String
  service : Option String
  index : Option Int
  requestId : String
  config : Option String
  destIp : String
  deriving DecidableEq, Repr, Inhabited

/-- `BroadcastManager` mutable state (plus the two ghost logs). -/
structure BMState where
  pending : List (String × Pending)
  pendingIndex : List String
  sent : List OutMsg
  resolved : List (String × StoredPayload)
  deriving DecidableEq, Repr, Inhabited

/-- `self.pending.get(request_id)`. -/
def tblGet (t : List (String × Pending)) (k : String) : Option Pending :=
  (t.find? (·.1 == k)).map (·.2)

/-- Removal of a key (`dict.pop`). -/
def tblErase (t : List (String × Pending)) (k : String) : List (String × Pending) :=
  t.filter (fun p => p.1 ≠ k)

/-- `self.pending[request_id] = v`: overwrite in place or append. -/
def tblSet (t : List (String × Pending)) (k : String) (v : Pending) :
    List (String × Pending) :=
  if (t.find? (·.1 == k)).isSome then
    t.map (fun p => if p.1 == k then (k, v) else p)
  else t ++ [(k, v)]

/-- `pending = self.pending.pop(request_id, None); if pending:
pending.set(payload)` — resolve the matching request and remove it, logging
the delivered resolution; a miss changes nothing. -/
def resolvePop (st : BMState) (rid : String) (p : StoredPayload) : BMState :=
  match tblGet st.pending rid with
  | some _ =>
      { st with
          pending := tblErase st.pending rid
          resolved := st.resolved ++ [(rid, p)] }
  | none => st

/-- `BroadcastManager._handle_service_ack` (pending-table effect; the registry
snapshot update has no effect on the table): an intermediate transition ack
updates the matching entry's payload without resolving it; a terminal ack
resolves and removes it; a falsy or unknown `request_id` changes nothing. -/
def handle_service_ack (st : BMState) (a : AckIn) : BMState :=
  if optTruthy a.requestId then
    let rid := a.requestId.getD ""
    if a.transition then
      match tblGet st.pending rid with
      | some p =>
          { st with pending :=
              tblSet st.pending rid { p with payload := some (StoredPayload.ack a) } }
      | none => st
    else resolvePop st rid (StoredPayload.ack a)
  else st

/-- The `POWER_ACK` branch of `_listen_loop`: pop-and-resolve by id. -/
def handle_power_ack (st : BMState) (a : AckIn) : BMState :=
  if optTruthy a.requestId then resolvePop st (a.requestId.getD "") (StoredPayload.ack a)
  else st

/-- The `INDEX_ACK` branch of `_listen_loop`: pop-and-resolve by id, then
discard the serial's dedup marker (the registry index update has no
pending-table effect). -/
def handle_index_ack (st : BMState) (a : AckIn) : BMState :=
  let st1 :=
    if optTruthy a.requestId then resolvePop st (a.requestId.getD "") (StoredPayload.ack a)
    else st
  if optTruthy a.serial then
    { st1 with pendingIndex := st1.pendingIndex.filter (fun s => s ≠ a.serial.getD "") }
  else st1

/-- One inbound ack as the listener demultiplexes it by `type`; any other
type leaves the state alone. -/
def processAck (st : BMState) (a : AckIn) : BMState :=
  if a.msgType = "SERVICE_ACK" then handle_service_ack st a
  else if a.msgType = "POWER_ACK" then handle_power_ack st a
  else if a.msgType = "INDEX_ACK" then handle_index_ack st a
  else st

/-- The key an ack's `request_id` addresses. -/
def ridKey (a : AckIn) : String := a.requestId.getD ""

/-- The exceptions the broadcaster raises: Python's `TimeoutError` (raised by
`PendingRequest.wait`) and FastAPI's `HTTPException` (raised by
`errors.api_error`). -/
inductive PyErr where
  | timeoutErr
  | httpException (statusCode : Nat) (detail : String)
  deriving DecidableEq, Repr, Inhabited

/-- `BroadcastManager._send_command`: on a socket send failure, every pending
request whose payload is still unset is resolved `{ok: False, error}` and
removed, then `api_error(500, ...)` raises. -/
def send_command (sendOk : Bool) (errText : String) (st : BMState)
    (msg : OutMsg) : Except PyErr Unit × BMState :=
  if sendOk then (Except.ok (), { st with sent := st.sent ++ [msg] })
  else
    (Except.error (PyErr.httpException 500 "error enviando comando"),
     { st with
         pending := st.pending.filter (fun p => p.2.payload.isSome)
         resolved := st.resolved ++
           (st.pending.filter (fun p => p.2.payload.isNone)).map
             (fun p => (p.1, StoredPayload.failure false errText)) })

/-- `request_service_change` up to the blocking wait: validate the device and
its IP (`HTTPException(400)` otherwise), register a fresh `PendingRequest`
under the new request id and send `SET_SERVICE` (the `config` key only when
truthy). -/
def request_service_change_send (devices : List RegEntry) (st : BMState)
    (serial service : String) (config : Option String) (rid : String) :
    Except (PyErr × BMState) BMState :=
  match regGet devices serial with
  | none => Except.error (PyErr.httpException 400 "dispositivo desconocido", st)
  | some d =>
      match d.ip with
      | none =>
          Except.error (PyErr.httpException 400 "no se conoce la IP del dispositivo", st)
      | some ip =>
          let st1 := { st with pending := tblSet st.pending rid newPending }
          Except.ok { st1 with sent := st1.sent ++
            [{ msgType := "SET_SERVICE", service := some service, index := none,
               requestId := rid,
               config := if optTruthy config then config else none,
               destIp := ip }] }

/-- The `except TimeoutError` continuation of `request_service_change`: the
pending entry is removed and `api_error(504, ...)` raises an `HTTPException`
— the caught `TimeoutError` itself is not propagated. -/
def request_service_change_timeout (st : BMState) (rid : String) :
    PyErr × BMState :=
  (PyErr.httpException 504 "el agente no respondió al cambio de servicio",
   { st with pending := tblErase st.pending rid })

/-- `request_service_change` in the never-acked scenario: validate, register
and send; the listener processes arbitrary inbound traffic (`listener`) while
the caller blocks, no terminal ack for this id arrives within the timeout, so
`PendingRequest.wait` raises `TimeoutError` and the timeout continuation
runs. -/
def request_service_change_noAck (devices : List RegEntry) (st : BMState)
    (serial service : String) (config : Option String) (rid : String)
    (listener : BMState → BMState) : PyErr × BMState :=
  match request_service_change_send devices st serial service config rid with
  | Except.error e => e
  | Except.ok st1 => request_service_change_timeout (listener st1) rid

/-- The outcome of `request_index_update` up to its blocking wait. -/
inductive IdxStartResult where
  | err (e : PyErr)
  | dictResult (ok : Bool) (pending : Bool)
  | await (rid : String)
  deriving DecidableEq, Repr, Inhabited

/-- `request_index_update` up to the blocking wait: validate the device and
IP, then the per-serial dedup check — `serial in self.pending_index` returns
`{ok: True, pending: True}` immediately with nothing sent — else register the
pending entry, add the serial to the dedup set and send `SET_INDEX`. -/
def request_index_update_send (devices : List RegEntry) (st : BMState)
    (serial : String) (index : Int) (rid : String) : IdxStartResult × BMState :=
  match regGet devices serial with
  | none => (IdxStartResult.err (PyErr.httpException 400 "dispositivo desconocido"), st)
  | some d =>
      match d.ip with
      | none =>
          (IdxStartResult.err (PyErr.httpException 400 "no se conoce la IP del dispositivo"), st)
      | some ip =>
          if serial ∈ st.pendingIndex then (IdxStartResult.dictResult true true, st)
          else
            let st1 := { st with
              pending := tblSet st.pending rid newPending
              pendingIndex := st.pendingIndex ++ [serial] }
            (IdxStartResult.await rid,
             { st1 with sent := st1.sent ++
               [{ msgType := "SET_INDEX", service := none, index := some index,
                  requestId := rid, config := none, destIp := ip }] })


/-- The empty broadcaster state. -/
def bmEmpty : BMState := { pending := [], pendingIndex := [], sent := [], resolved := [] }

/-- A pending request whose payload slot was already written. -/
def pendingSet : Pending :=
  { payload := some (StoredPayload.failure true "done"), eventSet := false }

/-- Two unresolved pending requests. -/
def bmTwoPending : BMState :=
  { pending := [("r1", newPending), ("r2", newPending)], pendingIndex := [],
    sent := [], resolved := [] }

/-- One unset and one set pending request. -/
def bmMixedPending : BMState :=
  { pending := [("r1", newPending), ("r2", pendingSet)], pendingIndex := [],
    sent := [], resolved := [] }

/-- A terminal `SERVICE_ACK` for request `r1`. -/
def ackR1 : AckIn :=
  { msgType := "SERVICE_ACK", requestId := some "r1", serial := some "SER1",
    transition := false, ok := true, error := none, index := none }

/-- A terminal `SERVICE_ACK` whose request id is unknown. -/
def ackUnknown : AckIn :=
  { msgType := "SERVICE_ACK", requestId := some "zz", serial := some "SER1",
    transition := false, ok := true, error := none, index := none }

/-- A registry with one reachable device. -/
def regOneDevice : List RegEntry :=
  [{ serial := "SER1", ip := some "10.0.0.7", lastSeen := 0 }]

/-- A concrete command datagram. -/
def outMsg0 : OutMsg :=
  { msgType := "POWER", service := none, index := none, requestId := "r0",
    config := none, destIp := "10.0.0.7" }


theorem setServiceTransition_file (st : AgentState) (a : Bool)
    (sg : Option String) (p : Option Int) :
    (setServiceTransition st a sg p).file = st.file := by
  cases sg <;> cases p <;> rfl

theorem setServiceTransition_sup (st : AgentState) (a : Bool)
    (sg : Option String) (p : Option Int) :
    (setServiceTransition st a sg p).sup = st.sup := by
  cases sg <;> cases p <;> rfl

theorem updateServiceStatusWith_file (env : AgentEnv) (st : AgentState)
    (e : Option String) (r : Option SupStatus) :
    (updateServiceStatusWith env st e r).file = st.file := by
  cases r <;> rfl

theorem setServiceError_file (env : AgentEnv) (st : AgentState) (m : String) :
    (setServiceError env st m).file = st.file := by
  unfold setServiceError
  rw [updateServiceStatusWith_file, setServiceTransition_file]

theorem clearServiceError_file (env : AgentEnv) (st : AgentState) :
    (clearServiceError env st).file = st.file := by
  unfold clearServiceError
  cases st.serviceError <;> simp [updateServiceStatusWith_file]

/-- Every error outcome of `_apply_active_service` leaves the persisted
structure file untouched: the only write (`set_active_service`) happens after
a successful start, and a failing persist is atomic. -/
theorem applyActiveService_error_file (env : AgentEnv) (st : AgentState)
    (svc : String) (cfgName : Option String) (m : String) (st' : AgentState)
    (h : applyActiveService env st svc cfgName = Except.error (m, st')) :
    st'.file = st.file := by
  unfold applyActiveService at h
  dsimp only [] at h
  repeat' split at h
  all_goals
    first
      | (injection h with h1; injection h1 with h2 h3; subst h3; rfl)
      | injection h

theorem isRunningPoll_preserves (s : SupState) :
    (isRunningPoll s).2.name = s.name ∧ (isRunningPoll s).2.calls = s.calls ∧
    (isRunningPoll s).2.logical = s.logical := by
  unfold isRunningPoll
  cases s.proc with
  | none => exact ⟨rfl, rfl, rfl⟩
  | some p => by_cases hp : p.alive <;> simp [hp]

theorem get_status_preserves (s : SupState) :
    (get_status s).2.name = s.name ∧ (get_status s).2.calls = s.calls := by
  unfold get_status
  exact ⟨(isRunningPoll_preserves s).1, (isRunningPoll_preserves s).2.1⟩

theorem stop_service_calls (env : SupEnv) (s : SupState) :
    (stop_service env s).2.calls = s.calls ++ [SupCall.stopCall] := by
  unfold stop_service
  have h := (isRunningPoll_preserves { s with calls := s.calls ++ [SupCall.stopCall] }).2.1
  by_cases hr : (isRunningPoll { s with calls := s.calls ++ [SupCall.stopCall] }).1 <;>
    by_cases ht : env.termRaises <;> simp [hr, ht, h]

/-- On spawn failure (for a non-standby, non-logical service that is not
already the retained process), `start_service` returns `False` and its ghost
trace gains exactly one start call — the failing one. -/
theorem start_service_spawn_fail (env : SupEnv) (name : String) (s : SupState)
    (hstandby : name ≠ STANDBY_SERVICE) (hlog : env.isLogical name = false)
    (hname : s.name ≠ some name) (hspawn : env.spawnOk name = false) :
    (start_service env name s).1 = false ∧
    (start_service env name s).2.calls.filter isStartCall =
      s.calls.filter isStartCall ++ [SupCall.startCall name] := by
  unfold start_service
  rw [if_neg hstandby, if_neg (by simp [hlog])]
  dsimp only []
  have hpres := isRunningPoll_preserves { s with calls := s.calls ++ [SupCall.startCall name] }
  have hbeq : ((isRunningPoll { s with calls := s.calls ++ [SupCall.startCall name] }).2.name
      == some name) = false := by
    rw [hpres.1]
    simpa using hname
  rw [hbeq]
  by_cases hr : (isRunningPoll { s with calls := s.calls ++ [SupCall.startCall name] }).1
  · simp only [hr, Bool.and_false, Bool.false_eq_true, if_false, if_true, hspawn]
    refine ⟨trivial, ?_⟩
    rw [stop_service_calls, hpres.2.1]
    simp [isStartCall]
  · simp only [hr, Bool.false_and, Bool.false_eq_true, if_false, hspawn]
    refine ⟨trivial, ?_⟩
    rw [hpres.2.1]
    simp [isStartCall]

/-- C1 (amended): when the Supervisor fails to start a known, non-standby
service (spawn failure), `_apply_active_service` raises the start error with
the persisted desired-service untouched and with no rollback attempt: its
ghost trace gains exactly one start call, the failing one — the code's
`start_service(previous)` rollback runs only when persisting the desired
service fails after a successful start. -/
theorem applyActiveService_start_failure_no_rollback
    (env : AgentEnv) (st : AgentState) (svc : String) (cfgName : Option String)
    (htrim : pyStrip svc = svc) (hne : svc.isEmpty = false)
    (hdisc : svc ∈ env.discovered)
    (hstandby : svc ≠ STANDBY_SERVICE)
    (hprev : svc ≠ previousOf st)
    (hname : st.sup.name ≠ some svc)
    (hlog : env.sup.isLogical svc = false)
    (hdl : optTruthy cfgName = true → env.downloadOk svc (cfgName.getD "") = true)
    (hspawn : env.sup.spawnOk svc = false) :
    ∃ st', applyActiveService env st svc cfgName =
        Except.error ("no se pudo iniciar el servicio '" ++ svc ++ "'", st') ∧
      st'.file = st.file ∧
      st'.sup.calls.filter isStartCall =
        st.sup.calls.filter isStartCall ++ [SupCall.startCall svc] := by
  have hdlok : downloadConfig env svc cfgName (optTruthy cfgName) = Except.ok () := by
    unfold downloadConfig
    cases hopt : optTruthy cfgName with
    | false => simp
    | true => simp [hdl hopt]
  have hstart := start_service_spawn_fail env.sup svc (get_status st.sup).2
    hstandby hlog (by rw [(get_status_preserves st.sup).1]; exact hname) hspawn
  unfold applyActiveService
  dsimp only []
  rw [htrim]
  rw [if_neg (by simp [hne])]
  rw [if_neg (by simp [hdisc])]
  rw [if_neg (fun hc => hprev hc.1)]
  rw [if_neg hstandby]
  rw [hdlok]
  dsimp only []
  rw [hstart.1]
  refine ⟨_, rfl, rfl, ?_⟩
  dsimp only []
  rw [hstart.2, (get_status_preserves st.sup).2]

/-- C1 counterexample: from standby, a `_apply_active_service("MIDI")` call
whose spawn fails propagates the start error, but its supervisor-call trace is
exactly the one failing start — no `start_service(previous)` rollback call is
made, contradicting the claim that a rollback start of the previous service is
attempted on start failure. -/
theorem applyActiveService_start_failure_counterexample :
    applyResultMsg (applyActiveService agentEnvSpawnFail
        (standbyBootState twoServiceFile) "MIDI" none) =
      some "no se pudo iniciar el servicio 'MIDI'" ∧
    applyResultCalls (applyActiveService agentEnvSpawnFail
        (standbyBootState twoServiceFile) "MIDI" none) =
      [SupCall.startCall "MIDI"] := by
  constructor <;> rfl

/-- C1 witness: the amended no-rollback theorem applied at the concrete
spawn-failure environment. -/
theorem applyActiveService_start_failure_no_rollback_witness :
    ∃ st', applyActiveService agentEnvSpawnFail (standbyBootState twoServiceFile)
        "MIDI" none =
        Except.error ("no se pudo iniciar el servicio 'MIDI'", st') ∧
      st'.file = (standbyBootState twoServiceFile).file ∧
      st'.sup.calls.filter isStartCall =
        (standbyBootState twoServiceFile).sup.calls.filter isStartCall ++
          [SupCall.startCall "MIDI"] :=
  applyActiveService_start_failure_no_rollback agentEnvSpawnFail
    (standbyBootState twoServiceFile) "MIDI" none (by decide) (by decide) (by decide)
    (by decide) (by decide) (by decide) rfl (by decide)
    rfl

/-- C9: every call to the supervisor's `stop_service` — whether no process was
retained, termination succeeded, or termination raised — clears the retained
process handle, so `get_status` immediately afterwards reports
`running = false` for every possible prior state. -/
theorem stop_service_clears_handle (env : SupEnv) (s : SupState) :
    ((stop_service env s).2).proc = none ∧
    ((get_status (stop_service env s).2).1).running = false := by
  have hproc : ((stop_service env s).2).proc = none := by
    unfold stop_service
    cases hp : (isRunningPoll { s with calls := s.calls ++ [SupCall.stopCall] }).1
    · simp [hp]
    · cases env.termRaises <;> simp [hp]
  refine ⟨hproc, ?_⟩
  unfold get_status isRunningPoll
  rw [hproc]

/-- C2: for every `SET_SERVICE` command whose final `SERVICE_ACK` carries
`ok = false`, the persisted desired-service (the single enabled entry of the
structure file) equals its value immediately before the command was handled:
every failing `_apply_active_service` path raises before the persist step. -/
theorem setService_ack_false_preserves_desired (env : AgentEnv) (st : AgentState)
    (requestId serviceOpt configTarget : Option String) (a : AckMsg)
    (hlast : (handleServiceCommand env st requestId serviceOpt
      configTarget).1.getLast? = some a)
    (hok : a.ok = false) :
    get_enabled_service
        (handleServiceCommand env st requestId serviceOpt configTarget).2.file =
      get_enabled_service st.file := by
  unfold handleServiceCommand at hlast ⊢
  dsimp only [] at hlast ⊢
  cases happ : applyActiveService env
      (setServiceTransition st true (some "cerrando") (some 5))
      (serviceOpt.getD "") configTarget with
  | ok st2 =>
      rw [happ] at hlast
      dsimp only [] at hlast
      simp only [List.getLast?, Option.some.injEq] at hlast
      rw [← hlast] at hok
      simp [mkServiceAck] at hok
  | error pr =>
      obtain ⟨msg, st2⟩ := pr
      dsimp only []
      rw [setServiceTransition_file, setServiceError_file]
      rw [applyActiveService_error_file env _ _ _ _ _ happ]
      rw [setServiceTransition_file]

/-- C2 witness: a `SET_SERVICE` for an unknown service acks `ok = false` and
leaves the persisted desired-service at its pre-request value. -/
theorem setService_ack_false_preserves_desired_witness :
    get_enabled_service
        (handleServiceCommand agentEnvOk (standbyBootState twoServiceFile)
          (some "req-1") (some "NOPE") none).2.file =
      get_enabled_service (standbyBootState twoServiceFile).file :=
  setService_ack_false_preserves_desired agentEnvOk (standbyBootState twoServiceFile)
    (some "req-1") (some "NOPE") none
    ((handleServiceCommand agentEnvOk (standbyBootState twoServiceFile)
        (some "req-1") (some "NOPE") none).1.getLast?.getD default)
    (by decide) (by decide)

theorem isRunningPoll_none (s : SupState) (h : s.proc = none) :
    isRunningPoll s = (false, s) := by
  unfold isRunningPoll
  rw [h]

/-- On spawn success (for a non-standby, non-logical service with no retained
process), `start_service` spawns and retains the new handle. -/
theorem start_service_spawn_ok (env : SupEnv) (name : String) (s : SupState)
    (hstandby : name ≠ STANDBY_SERVICE) (hlog : env.isLogical name = false)
    (hproc : s.proc = none) (hspawn : env.spawnOk name = true) :
    start_service env name s =
      (true, { s with
                 calls := s.calls ++ [SupCall.startCall name]
                 proc := some { pid := env.spawnPid name, alive := true, rc := 0 }
                 name := some name
                 logical := some name
                 lastError := none
                 lastReturncode := none }) := by
  unfold start_service
  rw [if_neg hstandby, if_neg (by simp [hlog])]
  dsimp only []
  rw [isRunningPoll_none { s with calls := s.calls ++ [SupCall.startCall name] } hproc]
  simp [hspawn]

theorem find_enabled_set_active (l : List ServiceEntry) (svc : String)
    (h : svc ∈ l.map (·.name)) :
    (l.map (fun e => { e with enabled := e.name = svc })).find? (·.enabled) =
      some { name := svc, enabled := true } := by
  induction l with
  | nil => simp at h
  | cons e rest ih =>
      by_cases hc : e.name = svc
      · subst hc
        simp [List.find?]
      · have h2 : svc ∈ rest.map (·.name) := by
          rcases List.mem_cons.mp h with h1 | h1
          · exact absurd h1.symm hc
          · exact h1
        simpa [List.find?, hc] using ih h2

theorem set_active_service_mem (discovered : List String) (file : ConfigFile)
    (svc : String) (h : svc ∈ file.services.map (·.name)) :
    set_active_service discovered file svc =
      Except.ok { file with services := file.services.map (fun e => { e with enabled := e.name = svc }) } := by
  unfold set_active_service
  have hc : (file.services.map (·.name)).contains svc = true := by
    simpa using h
  have hany : (file.services.map (fun e => { e with enabled := e.name = svc })).any
      (·.enabled) = true := by
    refine List.any_eq_true.mpr ?_
    refine ⟨{ name := svc, enabled := true }, ?_, rfl⟩
    exact List.mem_of_find?_eq_some (find_enabled_set_active file.services svc h)
  simp only [hc, if_true, hany]

theorem get_enabled_set_active (file : ConfigFile) (svc : String)
    (h : svc ∈ file.services.map (·.name)) :
    get_enabled_service { file with services := file.services.map (fun e => { e with enabled := e.name = svc }) } = some svc := by
  unfold get_enabled_service
  rw [find_enabled_set_active file.services svc h]
  rfl

theorem setServiceTransition_keeps (st : AgentState) (a : Bool)
    (sg : Option String) (p : Option Int) :
    (setServiceTransition st a sg p).serviceStatus.expected =
      st.serviceStatus.expected ∧
    (setServiceTransition st a sg p).serviceStatus.running =
      st.serviceStatus.running ∧
    (setServiceTransition st a sg p).sup = st.sup ∧
    (setServiceTransition st a sg p).serviceError = st.serviceError := by
  cases sg <;> cases p <;> exact ⟨rfl, rfl, rfl, rfl⟩

theorem setServiceTransition_sets (st : AgentState) (a : Bool)
    (sg : String) (p : Int) :
    (setServiceTransition st a (some sg) (some p)).serviceStatus.transition = a ∧
    (setServiceTransition st a (some sg) (some p)).serviceStatus.stage = some sg ∧
    (setServiceTransition st a (some sg) (some p)).serviceStatus.progress =
      clampProgress p :=
  ⟨rfl, rfl, rfl⟩

/-- From a standby-booted state, `_apply_active_service` of a known,
non-standby, spawnable service succeeds, leaving the supervisor running the
service and persisting it as the single enabled entry, with the transition
fields untouched. -/
theorem applyActiveService_from_standby_ok (env : AgentEnv) (st : AgentState)
    (svc : String)
    (htrim : pyStrip svc = svc) (hne : svc.isEmpty = false)
    (hdisc : svc ∈ env.discovered)
    (hstandby : svc ≠ STANDBY_SERVICE)
    (hprev : svc ≠ previousOf st)
    (hlog : env.sup.isLogical svc = false)
    (hspawn : env.sup.spawnOk svc = true)
    (hproc : st.sup.proc = none)
    (hserr : st.serviceError = none)
    (hmem : svc ∈ st.file.services.map (·.name)) :
    ∃ st4, applyActiveService env st svc none = Except.ok st4 ∧
      st4.serviceStatus.expected = svc ∧
      st4.serviceStatus.running = true ∧
      st4.sup.name = some svc ∧
      st4.sup.proc.map (·.alive) = some true ∧
      get_enabled_service st4.file = some svc ∧
      st4.serviceStatus.transition = st.serviceStatus.transition ∧
      st4.serviceStatus.stage = st.serviceStatus.stage ∧
      st4.serviceStatus.progress = st.serviceStatus.progress := by
  have hpoll := isRunningPoll_none st.sup hproc
  have hgs : get_status st.sup =
      ({ name := st.sup.name
         logical := st.sup.logical
         running := false
         pid := none
         lastError := st.sup.lastError
         returncode := st.sup.lastReturncode }, st.sup) := by
    unfold get_status
    rw [hpoll]
    rfl
  have hstart := start_service_spawn_ok env.sup svc st.sup hstandby hlog hproc hspawn
  have hSA := set_active_service_mem env.discovered st.file svc hmem
  have hGE := get_enabled_set_active st.file svc hmem
  unfold applyActiveService
  dsimp only []
  rw [htrim]
  rw [if_neg (by simp [hne])]
  rw [if_neg (by simp [hdisc])]
  rw [if_neg (fun hcon => hprev hcon.1)]
  rw [if_neg hstandby]
  have hdlok : downloadConfig env svc none (optTruthy none) = Except.ok () := rfl
  rw [hdlok]
  dsimp only []
  rw [hgs]
  dsimp only []
  rw [hstart]
  rw [hSA]
  refine ⟨_, rfl, ?_⟩
  simp only [clearServiceError, updateServiceStatusWith, get_status, isRunningPoll, hserr]
  simp [hGE]

/-- C7: a successful `SET_SERVICE` handled from the standby state emits, in
order, an intermediate transition ack (stage "cerrando", progress 5), an
intermediate transition ack (stage "abriendo", progress 80) and a final ack
(`transition = false`, `ok = true`, stage "completado", progress 100), and the
agent ends running the requested service (supervisor running it, status
expecting it, desired-service persisted to it). -/
theorem setService_from_standby_acks (env : AgentEnv) (file : ConfigFile)
    (requestId : Option String) (svc : String)
    (htrim : pyStrip svc = svc) (hne : svc.isEmpty = false)
    (hdisc : svc ∈ env.discovered)
    (hstandby : svc ≠ STANDBY_SERVICE)
    (hlog : env.sup.isLogical svc = false)
    (hspawn : env.sup.spawnOk svc = true)
    (henabled : get_enabled_service file = some STANDBY_SERVICE)
    (hmem : svc ∈ file.services.map (·.name)) :
    ((handleServiceCommand env (standbyBootState file) requestId (some svc)
        none).1.map (fun a => (a.ok, a.transition, a.stage, a.progress)) =
      [(true, true, "cerrando", some 5), (true, true, "abriendo", some 80),
       (true, false, "completado", some 100)]) ∧
    (handleServiceCommand env (standbyBootState file) requestId (some svc)
        none).2.serviceStatus.expected = svc ∧
    (handleServiceCommand env (standbyBootState file) requestId (some svc)
        none).2.serviceStatus.running = true ∧
    (handleServiceCommand env (standbyBootState file) requestId (some svc)
        none).2.serviceStatus.transition = false ∧
    (handleServiceCommand env (standbyBootState file) requestId (some svc)
        none).2.serviceStatus.stage = some "completado" ∧
    (handleServiceCommand env (standbyBootState file) requestId (some svc)
        none).2.serviceStatus.progress = 100 ∧
    (handleServiceCommand env (standbyBootState file) requestId (some svc)
        none).2.sup.name = some svc ∧
    (handleServiceCommand env (standbyBootState file) requestId (some svc)
        none).2.sup.proc.map (·.alive) = some true ∧
    get_enabled_service (handleServiceCommand env (standbyBootState file)
        requestId (some svc) none).2.file = some svc := by
  have hprev : svc ≠ previousOf (setServiceTransition (standbyBootState file)
      true (some "cerrando") (some 5)) := by
    unfold previousOf
    show svc ≠ orDefault (get_enabled_service file) STANDBY_SERVICE
    rw [henabled]
    simpa [orDefault, STANDBY_SERVICE] using hstandby
  obtain ⟨st4, happ, hexp, hrun, hname, halive, hfile, -, -, -⟩ :=
    applyActiveService_from_standby_ok env
      (setServiceTransition (standbyBootState file) true (some "cerrando") (some 5))
      svc htrim hne hdisc hstandby hprev hlog hspawn rfl rfl hmem
  unfold handleServiceCommand
  dsimp only []
  simp only [Option.getD_some]
  rw [happ]
  dsimp only []
  exact ⟨by simp [mkServiceAck]; exact ⟨by decide, by decide, by decide⟩,
    hexp, hrun, rfl, rfl, rfl, hname, halive, hfile⟩

/-- C7 witness: the concrete standby-boot agent receiving `SET_SERVICE(MIDI)`
emits the three specified acks and ends running MIDI. -/
theorem setService_from_standby_acks_witness :
    ((handleServiceCommand agentEnvOk (standbyBootState twoServiceFile)
        (some "req-7") (some "MIDI") none).1.map
        (fun a => (a.ok, a.transition, a.stage, a.progress)) =
      [(true, true, "cerrando", some 5), (true, true, "abriendo", some 80),
       (true, false, "completado", some 100)]) ∧
    (handleServiceCommand agentEnvOk (standbyBootState twoServiceFile)
        (some "req-7") (some "MIDI") none).2.serviceStatus.expected = "MIDI" ∧
    (handleServiceCommand agentEnvOk (standbyBootState twoServiceFile)
        (some "req-7") (some "MIDI") none).2.serviceStatus.running = true ∧
    (handleServiceCommand agentEnvOk (standbyBootState twoServiceFile)
        (some "req-7") (some "MIDI") none).2.serviceStatus.transition = false ∧
    (handleServiceCommand agentEnvOk (standbyBootState twoServiceFile)
        (some "req-7") (some "MIDI") none).2.serviceStatus.stage = some "completado" ∧
    (handleServiceCommand agentEnvOk (standbyBootState twoServiceFile)
        (some "req-7") (some "MIDI") none).2.serviceStatus.progress = 100 ∧
    (handleServiceCommand agentEnvOk (standbyBootState twoServiceFile)
        (some "req-7") (some "MIDI") none).2.sup.name = some "MIDI" ∧
    (handleServiceCommand agentEnvOk (standbyBootState twoServiceFile)
        (some "req-7") (some "MIDI") none).2.sup.proc.map (·.alive) = some true ∧
    get_enabled_service (handleServiceCommand agentEnvOk
        (standbyBootState twoServiceFile) (some "req-7") (some "MIDI")
        none).2.file = some "MIDI" :=
  setService_from_standby_acks agentEnvOk twoServiceFile (some "req-7") "MIDI"
    (by decide) (by decide) (by decide) (by decide) rfl rfl (by decide) (by decide)

theorem tblGet_erase_self (t : List (String × Pending)) (k : String) :
    tblGet (tblErase t k) k = none := by
  unfold tblGet tblErase
  rw [Option.map_eq_none']
  rw [List.find?_eq_none]
  intro x hx
  have hne := (List.mem_filter.mp hx).2
  simp only [decide_eq_true_eq] at hne
  simpa using hne

theorem tblGet_erase_ne (t : List (String × Pending)) (k k' : String)
    (h : k ≠ k') : tblGet (tblErase t k') k = tblGet t k := by
  induction t with
  | nil => rfl
  | cons e rest ih =>
      unfold tblErase at ih ⊢
      by_cases he : e.1 = k'
      · have h1 : tblErase (e :: rest) k' = tblErase rest k' := by
          unfold tblErase
          simp [List.filter_cons, he]
        unfold tblErase at h1
        rw [List.filter_cons, if_neg (by simp [he])]
        unfold tblGet
        rw [List.find?_cons_of_neg _ (by simp [he]; exact fun hh => h hh.symm)]
        exact ih
      · rw [List.filter_cons, if_pos (by simp [he])]
        unfold tblGet
        by_cases hk : e.1 = k
        · rw [List.find?_cons_of_pos _ (by simp [hk]),
            List.find?_cons_of_pos _ (by simp [hk])]
        · rw [List.find?_cons_of_neg _ (by simp [hk]),
            List.find?_cons_of_neg _ (by simp [hk])]
          exact ih

theorem tblGet_of_find?_none (t : List (String × Pending)) (k : String)
    (h : t.find? (·.1 == k) = none) : tblGet t k = none := by
  unfold tblGet
  rw [h]
  rfl

theorem tblGet_set_self (t : List (String × Pending)) (k : String) (v : Pending) :
    tblGet (tblSet t k v) k = some v := by
  unfold tblSet
  by_cases hf : (t.find? (·.1 == k)).isSome
  · rw [if_pos hf]
    induction t with
    | nil => simp at hf
    | cons e rest ih =>
        by_cases he : e.1 = k
        · unfold tblGet
          rw [List.map_cons, if_pos (by simp [he])]
          rw [List.find?_cons_of_pos _ (by simp)]
          rfl
        · have hf' : (rest.find? (·.1 == k)).isSome := by
            rw [List.find?_cons_of_neg _ (by simp [he])] at hf
            exact hf
          unfold tblGet
          rw [List.map_cons, if_neg (by simp [he])]
          rw [List.find?_cons_of_neg _ (by simp [he])]
          exact ih hf'
  · rw [if_neg hf]
    have hnone : t.find? (·.1 == k) = none := by
      cases hfind : t.find? (·.1 == k)
      · rfl
      · rw [hfind] at hf
        simp at hf
    unfold tblGet
    rw [List.find?_append, hnone, Option.none_or,
      List.find?_cons_of_pos _ (by simp)]
    rfl

theorem tblGet_set_ne (t : List (String × Pending)) (k k' : String) (v : Pending)
    (h : k ≠ k') : tblGet (tblSet t k' v) k = tblGet t k := by
  unfold tblSet
  by_cases hf : (t.find? (·.1 == k')).isSome
  · rw [if_pos hf]
    clear hf
    induction t with
    | nil => rfl
    | cons e rest ih =>
        unfold tblGet
        rw [List.map_cons]
        by_cases he : e.1 = k'
        · rw [if_pos (by simp [he])]
          rw [List.find?_cons_of_neg _ (by simpa using h.symm)]
          rw [List.find?_cons_of_neg _ (by simp [he]; exact fun hh => h hh.symm)]
          exact ih
        · rw [if_neg (by simp [he])]
          by_cases hk : e.1 = k
          · rw [List.find?_cons_of_pos _ (by simp [hk]),
              List.find?_cons_of_pos _ (by simp [hk])]
          · rw [List.find?_cons_of_neg _ (by simp [hk]),
              List.find?_cons_of_neg _ (by simp [hk])]
            exact ih
  · rw [if_neg hf]
    unfold tblGet
    rw [List.find?_append]
    rw [List.find?_cons_of_neg _ (by simpa using h.symm)]
    simp

theorem tblSet_idem (t : List (String × Pending)) (k : String) (v : Pending) :
    tblSet (tblSet t k v) k v = tblSet t k v := by
  unfold tblSet
  by_cases hf : (t.find? (·.1 == k)).isSome
  · rw [if_pos hf]
    have hf2 : ((t.map (fun p => if p.1 == k then (k, v) else p)).find?
        (·.1 == k)).isSome := by
      induction t with
      | nil => simp at hf
      | cons e rest ih =>
          by_cases he : e.1 = k
          · rw [List.map_cons, if_pos (by simp [he]),
              List.find?_cons_of_pos _ (by simp)]
            simp
          · rw [List.find?_cons_of_neg _ (by simp [he])] at hf
            rw [List.map_cons, if_neg (by simp [he]),
              List.find?_cons_of_neg _ (by simp [he])]
            exact ih hf
    rw [if_pos hf2, List.map_map]
    refine List.map_congr_left ?_
    intro p _
    by_cases hp : p.1 = k
    · simp [hp]
    · simp [hp]
  · rw [if_neg hf]
    have hnone : t.find? (·.1 == k) = none := by
      cases hfind : t.find? (·.1 == k)
      · rfl
      · rw [hfind] at hf
        simp at hf
    have hf2 : ((t ++ [(k, v)]).find? (·.1 == k)).isSome := by
      rw [List.find?_append, hnone, Option.none_or,
        List.find?_cons_of_pos _ (by simp)]
      rfl
    rw [if_pos hf2]
    have hmap : ∀ p ∈ t ++ [(k, v)],
        (if p.1 == k then (k, v) else p) = p := by
      intro p hp
      rcases List.mem_append.mp hp with hp1 | hp1
      · have : ¬(p.1 == k) = true := by
          have := List.find?_eq_none.mp hnone p hp1
          simpa using this
        simp [this]
      · simp at hp1
        subst hp1
        simp
    calc (t ++ [(k, v)]).map (fun p => if p.1 == k then (k, v) else p)
        = (t ++ [(k, v)]).map id := List.map_congr_left hmap
      _ = t ++ [(k, v)] := List.map_id _

theorem resolvePop_pending_ne (st : BMState) (rid : String) (p : StoredPayload)
    (k : String) (h : k ≠ rid) :
    tblGet (resolvePop st rid p).pending k = tblGet st.pending k := by
  unfold resolvePop
  cases hg : tblGet st.pending rid
  · rfl
  · exact tblGet_erase_ne st.pending k rid h

theorem resolvePop_of_none (st : BMState) (rid : String) (p : StoredPayload)
    (h : tblGet st.pending rid = none) : resolvePop st rid p = st := by
  unfold resolvePop
  rw [h]

theorem resolvePop_pending_self (st : BMState) (rid : String) (p : StoredPayload) :
    tblGet (resolvePop st rid p).pending rid = none := by
  unfold resolvePop
  cases hg : tblGet st.pending rid
  · exact hg
  · exact tblGet_erase_self st.pending rid

/-- C5: for every inbound ack the listener processes, only the pending entry
whose id equals the ack's `request_id` can be updated or resolved — every
other key reads back unchanged; an ack whose id is unknown (in particular one
whose request was already resolved and removed) leaves the pending table
unchanged; and re-processing the same ack leaves the table unchanged, so
duplicate and reordered acks are handled idempotently. -/
theorem ack_handling_isolated_idempotent (st : BMState) (a : AckIn) :
    (∀ k, k ≠ ridKey a →
      tblGet (processAck st a).pending k = tblGet st.pending k) ∧
    (tblGet st.pending (ridKey a) = none →
      (processAck st a).pending = st.pending) ∧
    (processAck (processAck st a) a).pending = (processAck st a).pending := by
  have core : ∀ s1 : BMState,
      (∀ k, k ≠ ridKey a →
        tblGet (processAck s1 a).pending k = tblGet s1.pending k) ∧
      (tblGet s1.pending (ridKey a) = none →
        (processAck s1 a).pending = s1.pending) := by
    intro s1
    unfold processAck handle_service_ack handle_power_ack handle_index_ack ridKey
    by_cases hsvc : a.msgType = "SERVICE_ACK"
    · rw [if_pos hsvc]
      by_cases htr : optTruthy a.requestId
      · rw [if_pos htr]
        by_cases htrans : a.transition
        · rw [if_pos htrans]
          cases hg : tblGet s1.pending (a.requestId.getD "") with
          | none => exact ⟨fun k hk => rfl, fun _ => rfl⟩
          | some p =>
              refine ⟨fun k hk => tblGet_set_ne _ _ _ _ hk, fun hnone => ?_⟩
              exact absurd hnone (by simp)
        · rw [if_neg htrans]
          exact ⟨fun k hk => resolvePop_pending_ne s1 _ _ k hk,
            fun hnone => by rw [resolvePop_of_none s1 _ _ hnone]⟩
      · rw [if_neg htr]
        exact ⟨fun k hk => rfl, fun _ => rfl⟩
    · rw [if_neg hsvc]
      by_cases hpow : a.msgType = "POWER_ACK"
      · rw [if_pos hpow]
        by_cases htr : optTruthy a.requestId
        · rw [if_pos htr]
          exact ⟨fun k hk => resolvePop_pending_ne s1 _ _ k hk,
            fun hnone => by rw [resolvePop_of_none s1 _ _ hnone]⟩
        · rw [if_neg htr]
          exact ⟨fun k hk => rfl, fun _ => rfl⟩
      · rw [if_neg hpow]
        by_cases hidx : a.msgType = "INDEX_ACK"
        · rw [if_pos hidx]
          by_cases htr : optTruthy a.requestId
          · rw [if_pos htr]
            by_cases hser : optTruthy a.serial
            · rw [if_pos hser]
              exact ⟨fun k hk => resolvePop_pending_ne s1 _ _ k hk,
                fun hnone => by rw [resolvePop_of_none s1 _ _ hnone]⟩
            · rw [if_neg hser]
              exact ⟨fun k hk => resolvePop_pending_ne s1 _ _ k hk,
                fun hnone => by rw [resolvePop_of_none s1 _ _ hnone]⟩
          · rw [if_neg htr]
            by_cases hser : optTruthy a.serial
            · rw [if_pos hser]
              exact ⟨fun k hk => rfl, fun _ => rfl⟩
            · rw [if_neg hser]
              exact ⟨fun k hk => rfl, fun _ => rfl⟩
        · rw [if_neg hidx]
          exact ⟨fun k hk => rfl, fun _ => rfl⟩
  refine ⟨(core st).1, (core st).2, ?_⟩
  unfold processAck handle_service_ack handle_power_ack handle_index_ack
  by_cases hsvc : a.msgType = "SERVICE_ACK"
  · rw [if_pos hsvc, if_pos hsvc]
    by_cases htr : optTruthy a.requestId
    · rw [if_pos htr, if_pos htr]
      by_cases htrans : a.transition
      · rw [if_pos htrans, if_pos htrans]
        cases hg : tblGet st.pending (a.requestId.getD "") with
        | none =>
            dsimp only []
            rw [hg]
        | some p =>
            have hself := tblGet_set_self st.pending (a.requestId.getD "")
              { p with payload := some (StoredPayload.ack a) }
            dsimp only []
            rw [hself]
            exact tblSet_idem st.pending (a.requestId.getD "") _
      · rw [if_neg htrans, if_neg htrans]
        rw [resolvePop_of_none _ _ _ (resolvePop_pending_self st _ _)]
    · rw [if_neg htr, if_neg htr]
  · rw [if_neg hsvc, if_neg hsvc]
    by_cases hpow : a.msgType = "POWER_ACK"
    · rw [if_pos hpow, if_pos hpow]
      by_cases htr : optTruthy a.requestId
      · rw [if_pos htr, if_pos htr]
        rw [resolvePop_of_none _ _ _ (resolvePop_pending_self st _ _)]
      · rw [if_neg htr, if_neg htr]
    · rw [if_neg hpow, if_neg hpow]
      by_cases hidx : a.msgType = "INDEX_ACK"
      · rw [if_pos hidx, if_pos hidx]
        by_cases htr : optTruthy a.requestId
        · rw [if_pos htr, if_pos htr]
          by_cases hser : optTruthy a.serial
          · rw [if_pos hser, if_pos hser]
            set X := resolvePop st (a.requestId.getD "") (StoredPayload.ack a) with hX
            have h1 : tblGet X.pending (a.requestId.getD "") = none := by
              rw [hX]
              exact resolvePop_pending_self st _ _
            rw [resolvePop_of_none { X with pendingIndex := X.pendingIndex.filter (fun s => s ≠ a.serial.getD "") } _ _ h1]
          · rw [if_neg hser, if_neg hser]
            rw [resolvePop_of_none _ _ _ (resolvePop_pending_self st _ _)]
        · rw [if_neg htr, if_neg htr]
          by_cases hser : optTruthy a.serial
          · rw [if_pos hser, if_pos hser]
          · rw [if_neg hser, if_neg hser]
      · rw [if_neg hidx, if_neg hidx]

/-- C5 witness: a terminal ack for `r1` leaves `r2` readable unchanged and is
idempotent under re-delivery; an ack with an unknown id leaves the table
unchanged. -/
theorem ack_handling_isolated_idempotent_witness :
    tblGet (processAck bmTwoPending ackR1).pending "r2" =
      tblGet bmTwoPending.pending "r2" ∧
    (processAck (processAck bmTwoPending ackR1) ackR1).pending =
      (processAck bmTwoPending ackR1).pending ∧
    (processAck bmTwoPending ackUnknown).pending = bmTwoPending.pending :=
  ⟨(ack_handling_isolated_idempotent bmTwoPending ackR1).1 "r2" (by decide),
   (ack_handling_isolated_idempotent bmTwoPending ackR1).2.2,
   (ack_handling_isolated_idempotent bmTwoPending ackUnknown).2.1 (by decide)⟩

/-- C4: every registry read (`list_devices`) keeps every entry and derives its
`online` flag as `now - lastSeen < ttl`; a device whose last `AGENT_STATUS` is
older than the TTL is therefore classified offline while its entry is still
listed. -/
theorem registry_online_classification (devices : List RegEntry) (now ttl : ℚ) :
    (∀ d ∈ devices,
      ({ serial := d.serial, ip := d.ip, lastSeen := d.lastSeen,
         online := decide (now - d.lastSeen < ttl) } : RegEntryOut) ∈
        list_devices devices now ttl) ∧
    (∀ o ∈ list_devices devices now ttl,
      (o.online = true ↔ now - o.lastSeen < ttl)) ∧
    (list_devices devices now ttl).length = devices.length := by
  refine ⟨?_, ?_, by simp [list_devices]⟩
  · intro d hd
    exact List.mem_map.mpr ⟨d, hd, rfl⟩
  · intro o ho
    obtain ⟨d, hd, rfl⟩ := List.mem_map.mp ho
    simp

/-- C4 witness: a device last seen at time 0, read at time 10 with TTL 6, is
still listed and classified offline. -/
theorem registry_online_classification_witness :
    list_devices regOneDevice 10 6 =
      [{ serial := "SER1", ip := some "10.0.0.7", lastSeen := 0, online := false }] ∧
    (∀ o ∈ list_devices regOneDevice 10 6, (o.online = true ↔ 10 - o.lastSeen < 6)) :=
  ⟨by simp [list_devices, regOneDevice]; decide,
   (registry_online_classification regOneDevice 10 6).2.1⟩

/-- C6 (amended): when `SET_SERVICE` is sent but no terminal ack arrives
within the timeout, the call raises the HTTP 504 "agent did not respond"
error — the `TimeoutError` raised internally by `PendingRequest.wait` is
caught and converted, not propagated — and afterwards the pending table no
longer contains that request id, whatever other traffic the listener
processed meanwhile. -/
theorem request_service_change_timeout_removes_pending
    (devices : List RegEntry) (st : BMState) (serial service : String)
    (config : Option String) (rid : String) (listener : BMState → BMState)
    (d : RegEntry) (ip : String)
    (hdev : regGet devices serial = some d) (hip : d.ip = some ip) :
    (request_service_change_noAck devices st serial service config rid
        listener).1 =
      PyErr.httpException 504 "el agente no respondió al cambio de servicio" ∧
    tblGet (request_service_change_noAck devices st serial service config rid
        listener).2.pending rid = none := by
  unfold request_service_change_noAck request_service_change_send
  rw [hdev]
  dsimp only []
  rw [hip]
  dsimp only [request_service_change_timeout]
  exact ⟨rfl, tblGet_erase_self _ _⟩

/-- C6 counterexample: in the concrete never-acked run the raised exception is
the `HTTPException` with status 504, not a `TimeoutError`, refuting the claim
that the call raises `TimeoutError`. -/
theorem request_service_change_timeout_error_counterexample :
    (request_service_change_noAck regOneDevice bmEmpty "SER1" "MIDI" none
        "rid-1" id).1 =
      PyErr.httpException 504 "el agente no respondió al cambio de servicio" ∧
    (request_service_change_noAck regOneDevice bmEmpty "SER1" "MIDI" none
        "rid-1" id).1 ≠ PyErr.timeoutErr := by
  exact ⟨rfl, by decide⟩

/-- C6 witness: the amended theorem at the concrete never-acked run. -/
theorem request_service_change_timeout_removes_pending_witness :
    (request_service_change_noAck regOneDevice bmEmpty "SER1" "MIDI" none
        "rid-1" id).1 =
      PyErr.httpException 504 "el agente no respondió al cambio de servicio" ∧
    tblGet (request_service_change_noAck regOneDevice bmEmpty "SER1" "MIDI"
        none "rid-1" id).2.pending "rid-1" = none :=
  request_service_change_timeout_removes_pending regOneDevice bmEmpty "SER1"
    "MIDI" none "rid-1" id { serial := "SER1", ip := some "10.0.0.7", lastSeen := 0 }
    "10.0.0.7" (by decide) rfl

/-- C8: a second `request_index_update` for the same serial, entered while the
first is still outstanding (its serial still in the dedup set), sends no
`SET_INDEX` packet and returns `{ok: true, pending: true}` with the state
unchanged, so exactly one `SET_INDEX` packet is sent for the pair of calls. -/
theorem request_index_update_dedup (devices : List RegEntry) (st : BMState)
    (serial : String) (idx1 idx2 : Int) (rid1 rid2 : String)
    (d : RegEntry) (ip : String)
    (hdev : regGet devices serial = some d) (hip : d.ip = some ip)
    (hnot : serial ∉ st.pendingIndex) :
    (request_index_update_send devices st serial idx1 rid1).1 =
      IdxStartResult.await rid1 ∧
    (request_index_update_send devices st serial idx1 rid1).2.sent =
      st.sent ++ [{ msgType := "SET_INDEX", service := none, index := some idx1,
                    requestId := rid1, config := none, destIp := ip }] ∧
    request_index_update_send devices
        (request_index_update_send devices st serial idx1 rid1).2 serial idx2
        rid2 =
      (IdxStartResult.dictResult true true,
       (request_index_update_send devices st serial idx1 rid1).2) := by
  unfold request_index_update_send
  rw [hdev]
  dsimp only []
  rw [hip]
  dsimp only []
  rw [if_neg hnot]
  refine ⟨rfl, rfl, ?_⟩
  rw [if_pos (by simp)]

/-- C8 witness: the dedup theorem at a concrete device and state. -/
theorem request_index_update_dedup_witness :
    (request_index_update_send regOneDevice bmEmpty "SER1" 3 "ridA").1 =
      IdxStartResult.await "ridA" ∧
    (request_index_update_send regOneDevice bmEmpty "SER1" 3 "ridA").2.sent =
      bmEmpty.sent ++ [{ msgType := "SET_INDEX", service := none, index := some 3,
                         requestId := "ridA", config := none, destIp := "10.0.0.7" }] ∧
    request_index_update_send regOneDevice
        (request_index_update_send regOneDevice bmEmpty "SER1" 3 "ridA").2
        "SER1" 4 "ridB" =
      (IdxStartResult.dictResult true true,
       (request_index_update_send regOneDevice bmEmpty "SER1" 3 "ridA").2) :=
  request_index_update_dedup regOneDevice bmEmpty "SER1" 3 4 "ridA" "ridB"
    { serial := "SER1", ip := some "10.0.0.7", lastSeen := 0 } "10.0.0.7"
    (by decide) rfl (by decide)

/-- C10: when the command-socket send fails, every pending request whose
payload is still unset — not only the failed command's own — is resolved with
`ok = false` and the send error text and removed from the table; requests
whose payload was already written stay untouched; no new entry appears; and
the call raises the 500 error. -/
theorem send_command_failure_resolves_unset (errText : String) (st : BMState)
    (msg : OutMsg) :
    (send_command false errText st msg).1 =
      Except.error (PyErr.httpException 500 "error enviando comando") ∧
    (∀ e ∈ st.pending, e.2.payload = none →
        e ∉ (send_command false errText st msg).2.pending ∧
        (e.1, StoredPayload.failure false errText) ∈
          (send_command false errText st msg).2.resolved) ∧
    (∀ e ∈ st.pending, e.2.payload.isSome →
        e ∈ (send_command false errText st msg).2.pending) ∧
    (∀ e ∈ (send_command false errText st msg).2.pending, e ∈ st.pending) := by
  refine ⟨rfl, ?_, ?_, ?_⟩
  · intro e he hnone
    constructor
    · intro hmem
      have := (List.mem_filter.mp hmem).2
      rw [hnone] at this
      simp at this
    · unfold send_command
      refine List.mem_append.mpr (Or.inr ?_)
      refine List.mem_map.mpr ⟨e, ?_, rfl⟩
      exact List.mem_filter.mpr ⟨he, by rw [hnone]; rfl⟩
  · intro e he hsome
    exact List.mem_filter.mpr ⟨he, hsome⟩
  · intro e he
    exact (List.mem_filter.mp he).1

/-- C10 witness: with one unset (`r1`) and one set (`r2`) pending request, a
failed send raises the 500 error, resolves and removes `r1` with the error
text, and keeps `r2`. -/
theorem send_command_failure_resolves_unset_witness :
    (send_command false "boom" bmMixedPending outMsg0).1 =
      Except.error (PyErr.httpException 500 "error enviando comando") ∧
    ("r1", newPending) ∉ (send_command false "boom" bmMixedPending outMsg0).2.pending ∧
    ("r1", StoredPayload.failure false "boom") ∈
      (send_command false "boom" bmMixedPending outMsg0).2.resolved ∧
    ("r2", pendingSet) ∈ (send_command false "boom" bmMixedPending outMsg0).2.pending :=
  ⟨(send_command_failure_resolves_unset "boom" bmMixedPending outMsg0).1,
   ((send_command_failure_resolves_unset "boom" bmMixedPending outMsg0).2.1
      ("r1", newPending) (by decide) rfl).1,
   ((send_command_failure_resolves_unset "boom" bmMixedPending outMsg0).2.1
      ("r1", newPending) (by decide) rfl).2,
   (send_command_failure_resolves_unset "boom" bmMixedPending outMsg0).2.2.1
      ("r2", pendingSet) (by decide) rfl⟩

/-- The fuel loop, given some unused candidate within fuel range, returns the
least unused candidate at or above the start. -/
theorem nextCandAux_spec (used : List Nat) :
    ∀ fuel cand, (∃ k, cand ≤ k ∧ k ≤ cand + fuel ∧ k ∉ used) →
      nextCandAux used fuel cand ∉ used ∧ cand ≤ nextCandAux used fuel cand ∧
      ∀ j, cand ≤ j → j < nextCandAux used fuel cand → j ∈ used := by
  intro fuel
  induction fuel with
  | zero =>
      intro cand hk
      obtain ⟨k, hk1, hk2, hk3⟩ := hk
      have hkc : k = cand := le_antisymm (by simpa using hk2) hk1
      subst hkc
      exact ⟨hk3, le_refl _, fun j hj1 hj2 => absurd (lt_of_le_of_lt hj1 hj2)
        (lt_irrefl _)⟩
  | succ n ih =>
      intro cand hk
      obtain ⟨k, hk1, hk2, hk3⟩ := hk
      unfold nextCandAux
      by_cases hc : cand ∈ used
      · rw [if_pos hc]
        have hkne : k ≠ cand := fun he => hk3 (he ▸ hc)
        have hk1' : cand + 1 ≤ k := Nat.lt_of_le_of_ne hk1 (Ne.symm hkne)
        have hrec := ih (cand + 1) ⟨k, hk1', by omega, hk3⟩
        refine ⟨hrec.1, le_trans (Nat.le_succ cand) hrec.2.1, ?_⟩
        intro j hj1 hj2
        by_cases hjc : j = cand
        · exact hjc ▸ hc
        · exact hrec.2.2 j (Nat.lt_of_le_of_ne hj1 (Ne.symm hjc)) hj2
      · rw [if_neg hc]
        exact ⟨hc, le_refl _, fun j hj1 hj2 => absurd (lt_of_le_of_lt hj1 hj2)
          (lt_irrefl _)⟩

/-- Pigeonhole: among `1 .. used.length + 2` some value is unused. -/
theorem exists_unused_candidate (used : List Nat) :
    ∃ k, 1 ≤ k ∧ k ≤ 1 + (used.length + 1) ∧ k ∉ used := by
  by_contra hcon
  push_neg at hcon
  have hsub : Finset.Icc 1 (used.length + 2) ⊆ used.toFinset := by
    intro k hk
    rw [Finset.mem_Icc] at hk
    have := hcon k hk.1 (by omega)
    simpa using this
  have hcard := Finset.card_le_card hsub
  rw [Nat.card_Icc] at hcard
  have hlen := List.toFinset_card_le used
  omega

/-- `db._next_device_index` returns the smallest integer ≥ 1 not used by any
row — in particular it never returns 0 and never collides with an existing
index. -/
theorem next_device_index_spec (t : List DevRow) :
    next_device_index t ∉ usedIndices t ∧ 1 ≤ next_device_index t ∧
    ∀ j, 1 ≤ j → j < next_device_index t → j ∈ usedIndices t := by
  obtain ⟨k, h1, h2, h3⟩ := exists_unused_candidate (usedIndices t)
  exact nextCandAux_spec (usedIndices t) ((usedIndices t).length + 1) 1
    ⟨k, h1, h2, h3⟩

theorem idxOf_some_mem_used (t : List DevRow) (s : String) (i : Nat)
    (h : idxOf t s = some i) : i ∈ usedIndices t := by
  unfold idxOf at h
  cases hf : t.find? (·.serial == s) with
  | none => rw [hf] at h; cases h
  | some row =>
      rw [hf] at h
      exact List.mem_filterMap.mpr ⟨row, List.mem_of_find?_eq_some hf, h⟩

/-- `find?` by serial commutes with a serial-preserving row map. -/
theorem find?_serial_map (t : List DevRow) (s0 : String) (f : DevRow → DevRow)
    (hf : ∀ r, (f r).serial = r.serial) :
    (t.map f).find? (·.serial == s0) = (t.find? (·.serial == s0)).map f := by
  induction t with
  | nil => rfl
  | cons e rest ih =>
      by_cases he : e.serial = s0
      · rw [List.map_cons, List.find?_cons_of_pos _ (by simp [hf, he]),
          List.find?_cons_of_pos _ (by simp [he])]
        rfl
      · rw [List.map_cons, List.find?_cons_of_neg _ (by simp [hf, he]),
          List.find?_cons_of_neg _ (by simp [he])]
        exact ih

theorem idxOf_assign_map_ne (t : List DevRow) (s s1 : String) (n : Nat)
    (h : s1 ≠ s) :
    idxOf (t.map (fun r => if r.serial == s then { r with idx := some n } else r))
      s1 = idxOf t s1 := by
  unfold idxOf
  rw [find?_serial_map t s1 _ (fun r => by split <;> rfl)]
  cases hf : t.find? (·.serial == s1) with
  | none => rfl
  | some row =>
      have hrow : row.serial = s1 := by simpa using List.find?_some hf
      show (if row.serial == s then ({ row with idx := some n } : DevRow)
        else row).idx = row.idx
      rw [if_neg (by simp [hrow]; exact fun hh => h hh)]

theorem idxOf_assign_map_self (t : List DevRow) (s : String) (n : Nat)
    (row : DevRow) (hf : t.find? (·.serial == s) = some row) :
    idxOf (t.map (fun r => if r.serial == s then { r with idx := some n } else r))
      s = some n := by
  unfold idxOf
  rw [find?_serial_map t s _ (fun r => by split <;> rfl), hf]
  have hrow : (row.serial == s) = true := by
    have h2 := List.find?_some hf
    exact h2
  show (if row.serial == s then ({ row with idx := some n } : DevRow)
    else row).idx = some n
  rw [if_pos hrow]

theorem idxOf_append_ne (t : List DevRow) (s s1 : String) (n : Nat)
    (h : s1 ≠ s) :
    idxOf (t ++ [{ serial := s, idx := some n }]) s1 = idxOf t s1 := by
  unfold idxOf
  rw [List.find?_append]
  cases hf : t.find? (·.serial == s1) with
  | some row => rfl
  | none =>
      rw [List.find?_cons_of_neg _ (by simp; exact fun hh => h hh.symm)]
      rfl

theorem statusStep_self_some (t : List DevRow) (s : String) (i : Nat)
    (h : idxOf t s = some i) : idxOf (statusStep t s) s = some i := by
  unfold statusStep
  unfold idxOf at h
  cases hf : t.find? (·.serial == s) with
  | none => rw [hf] at h; cases h
  | some row =>
      have hidx : row.idx = some i := by
        rw [hf] at h
        exact h
      unfold ensure_device_index
      rw [hf]
      dsimp only []
      rw [hidx]
      dsimp only []
      unfold upsert_device_index
      rw [if_pos (by rw [hf]; rfl)]
      exact idxOf_assign_map_self t s i row hf

theorem statusStep_assign (t : List DevRow) (s : String)
    (h : idxOf t s = none) :
    (ensure_device_index t s).1 = next_device_index t ∧
    idxOf (statusStep t s) s = some (next_device_index t) := by
  unfold statusStep ensure_device_index
  unfold idxOf at h
  cases hf : t.find? (·.serial == s) with
  | none =>
      dsimp only []
      have hfind2 : (t ++ [({ serial := s, idx := some (next_device_index t) } :
          DevRow)]).find? (·.serial == s) =
          some { serial := s, idx := some (next_device_index t) } := by
        rw [List.find?_append, hf]
        rw [List.find?_cons_of_pos _ (by simp)]
        rfl
      refine ⟨rfl, ?_⟩
      unfold upsert_device_index
      rw [if_pos (by rw [hfind2]; rfl)]
      exact idxOf_assign_map_self _ s _ _ hfind2
  | some row =>
      have hidx : row.idx = none := by
        rw [hf] at h
        exact h
      dsimp only []
      rw [hidx]
      dsimp only []
      have hfind2 : ((t.map (fun r => if r.serial == s then
          { r with idx := some (next_device_index t) } else r)).find?
          (·.serial == s)) = some (if row.serial == s then
            ({ row with idx := some (next_device_index t) } : DevRow) else row) := by
        rw [find?_serial_map t s _ (fun r => by split <;> rfl), hf]
        rfl
      refine ⟨rfl, ?_⟩
      unfold upsert_device_index
      rw [if_pos (by rw [hfind2]; rfl)]
      exact idxOf_assign_map_self _ s _ _ hfind2

theorem statusStep_other (t : List DevRow) (s s1 : String) (hne : s1 ≠ s) :
    idxOf (statusStep t s) s1 = idxOf t s1 := by
  unfold statusStep ensure_device_index
  cases hf : t.find? (·.serial == s) with
  | none =>
      dsimp only []
      have hfind2 : (t ++ [({ serial := s, idx := some (next_device_index t) } :
          DevRow)]).find? (·.serial == s) =
          some { serial := s, idx := some (next_device_index t) } := by
        rw [List.find?_append, hf]
        rw [List.find?_cons_of_pos _ (by simp)]
        rfl
      unfold upsert_device_index
      rw [if_pos (by rw [hfind2]; rfl)]
      rw [idxOf_assign_map_ne _ s s1 _ hne]
      exact idxOf_append_ne t s s1 _ hne
  | some row =>
      dsimp only []
      cases hrow : row.idx with
      | some i =>
          dsimp only []
          unfold upsert_device_index
          rw [if_pos (by rw [hf]; rfl)]
          exact idxOf_assign_map_ne t s s1 i hne
      | none =>
          dsimp only []
          have hfind2 : ((t.map (fun r => if r.serial == s then
              { r with idx := some (next_device_index t) } else r)).find?
              (·.serial == s)) = some (if row.serial == s then
                ({ row with idx := some (next_device_index t) } : DevRow) else row) := by
            rw [find?_serial_map t s _ (fun r => by split <;> rfl), hf]
            rfl
          unfold upsert_device_index
          rw [if_pos (by rw [hfind2]; rfl)]
          rw [idxOf_assign_map_ne _ s s1 _ hne]
          exact idxOf_assign_map_ne t s s1 _ hne

/-- Once a serial holds index `i` and no other serial holds `i`, any sequence
of further `AGENT_STATUS` events keeps the serial at `i` and never gives `i`
to another serial. -/
theorem statusStep_fold_stable (evs : List String) (t : List DevRow)
    (s0 : String) (i : Nat)
    (h : idxOf t s0 = some i) (hex : ∀ s1, s1 ≠ s0 → idxOf t s1 ≠ some i) :
    idxOf (evs.foldl statusStep t) s0 = some i ∧
    ∀ s1, s1 ≠ s0 → idxOf (evs.foldl statusStep t) s1 ≠ some i := by
  induction evs generalizing t with
  | nil => exact ⟨h, hex⟩
  | cons e rest ih =>
      rw [List.foldl_cons]
      refine ih (statusStep t e) ?_ ?_
      · by_cases hes : e = s0
        · exact hes ▸ statusStep_self_some t e i (hes ▸ h)
        · rw [statusStep_other t e s0 (fun hh => hes (hh.symm ▸ rfl))]
          exact h
      · intro s1 hs1
        by_cases hse : s1 = e
        · subst hse
          cases hc : idxOf t s1 with
          | some j =>
              rw [statusStep_self_some t s1 j hc]
              have := hex s1 hs1
              rw [hc] at this
              simpa using fun hji => this (by rw [hji])
          | none =>
              rw [(statusStep_assign t s1 hc).2]
              have hmem := idxOf_some_mem_used t s0 i h
              have hnot := (next_device_index_spec t).1
              intro hcon
              apply hnot
              have : next_device_index t = i := by
                simpa using hcon
              rw [this]
              exact hmem
        · rw [statusStep_other t e s1 hse]
          exact hex s1 hs1

/-- C3 (amended): on the first `AGENT_STATUS` from a serial with no persisted
index, the controller assigns the smallest **positive** integer (the loop
starts at candidate 1, so 0 is never assigned) not used by any known device,
persists it, and the assignment is stable under all further `AGENT_STATUS`
processing: the serial keeps its index and no other serial is ever given it. -/
theorem agent_status_index_assignment (t : List DevRow) (serial : String)
    (h0 : idxOf t serial = none) :
    (1 ≤ (ensure_device_index t serial).1 ∧
     (ensure_device_index t serial).1 ∉ usedIndices t ∧
     (∀ j, 1 ≤ j → j < (ensure_device_index t serial).1 → j ∈ usedIndices t)) ∧
    idxOf (statusStep t serial) serial = some (ensure_device_index t serial).1 ∧
    (∀ evs : List String,
      idxOf (evs.foldl statusStep (statusStep t serial)) serial =
        some (ensure_device_index t serial).1 ∧
      ∀ s1, s1 ≠ serial →
        idxOf (evs.foldl statusStep (statusStep t serial)) s1 ≠
          some (ensure_device_index t serial).1) := by
  obtain ⟨hassign, hpersist⟩ := statusStep_assign t serial h0
  have hspec := next_device_index_spec t
  rw [hassign]
  refine ⟨⟨hspec.2.1, hspec.1, hspec.2.2⟩, hpersist, ?_⟩
  intro evs
  refine statusStep_fold_stable evs (statusStep t serial) serial
    (next_device_index t) hpersist ?_
  intro s1 hs1
  rw [statusStep_other t serial s1 hs1]
  intro hcon
  exact hspec.1 (idxOf_some_mem_used t s1 (next_device_index t) hcon)

/-- C3 counterexample: on an empty table the first status from a new serial is
assigned index 1, yet the smallest unused *non-negative* integer is 0 — the
loop never considers 0 — refuting the claim's "smallest non-negative
integer". -/
theorem ensure_device_index_not_nonneg_minimal_counterexample :
    (ensure_device_index [] "SER1").1 = 1 ∧
    ¬ specSmallestUnusedNonneg (usedIndices []) (ensure_device_index [] "SER1").1 := by
  refine ⟨rfl, ?_⟩
  unfold specSmallestUnusedNonneg usedIndices ensure_device_index
    next_device_index nextCandAux
  decide

/-- C3 witness: the amended assignment theorem at the empty table. -/
theorem agent_status_index_assignment_witness :
    (1 ≤ (ensure_device_index [] "SER1").1 ∧
     (ensure_device_index [] "SER1").1 ∉ usedIndices [] ∧
     (∀ j, 1 ≤ j → j < (ensure_device_index [] "SER1").1 → j ∈ usedIndices [])) ∧
    idxOf (statusStep [] "SER1") "SER1" = some (ensure_device_index [] "SER1").1 ∧
    (∀ evs : List String,
      idxOf (evs.foldl statusStep (statusStep [] "SER1")) "SER1" =
        some (ensure_device_index [] "SER1").1 ∧
      ∀ s1, s1 ≠ "SER1" →
        idxOf (evs.foldl statusStep (statusStep [] "SER1")) s1 ≠
          some (ensure_device_index [] "SER1").1) :=
  agent_status_index_assignment [] "SER1" rfl

end OmiSpec
